import Mathlib

/-!
Shallow embedding of the terminus-pty session engine
(internal/session/session.go, internal/session/pool.go and the HTTP
handler layer), together with proofs of the specification claims.

Modelling conventions:
* WebSocket connections are identified by `Nat` (pointer identity).
* Go `time.Time` instants and `time.Duration` values are modelled as `Int`
  (int64 nanoseconds; the scales involved never overflow 64 bits).
* The Go map `clients map[*websocket.Conn]string` is an association list
  with unique keys; lookup of an absent key yields the zero value `""`,
  exactly as in Go.
* The `done` channel plus the shared `closeOnce sync.Once` guard are
  modelled by the single boolean `closed` (the channel is closed exactly
  when the once-guard has fired; `ReplacePTY` re-arms both).
* Side effects on the backend are tracked by the ghost booleans
  `ptyClosed` (the current PTY attachment was closed) and `tmuxKilled`
  (tmux.KillSession was invoked on the backing tmux session).
* Fallible external calls (PTY spawn/attach/resize/write, tmux session
  existence) are parameterised by explicit boolean oracles.
-/

/-- Go map semantics: lookup with zero value `""` for absent keys. -/
def mapLookup : List (Nat × String) → Nat → String
  | [], _ => ""
  | e :: t, k => if e.1 = k then e.2 else mapLookup t k

/-- Go map semantics: `delete(m, k)` removes the entry for `k` if present. -/
def mapErase : List (Nat × String) → Nat → List (Nat × String)
  | [], _ => []
  | e :: t, k => if e.1 = k then mapErase t k else e :: mapErase t k

/-- Go map semantics: `m[k] = v` overwrites any existing entry for `k`. -/
def mapInsert (m : List (Nat × String)) (k : Nat) (v : String) : List (Nat × String) :=
  mapErase m k ++ [(k, v)]

/-- The keys of the client map. -/
def mapKeys (m : List (Nat × String)) : List Nat :=
  m.map Prod.fst

/-- State of one `Session` (session.go lines 11-27). Exported Go fields keep
their names; `clients`, `connectedClientId`, `closed` are the unexported
ones; `ptyClosed` and `tmuxKilled` are ghost fields tracking backend
side effects. -/
structure Session where
  ID : String
  Cols : Nat
  Rows : Nat
  CreatedAt : Int
  DisconnectedAt : Option Int
  TmuxSessionName : String
  LastActivityAt : Int
  clients : List (Nat × String)
  connectedClientId : String
  closed : Bool
  ptyClosed : Bool
  tmuxKilled : Bool
deriving DecidableEq

/-- NewSession (session.go lines 29-47): fresh empty client map, nil
DisconnectedAt, timestamps set to now. -/
def NewSession (id : String) (cols rows : Nat) (now : Int) : Session :=
  { ID := id
    Cols := cols
    Rows := rows
    CreatedAt := now
    DisconnectedAt := none
    TmuxSessionName := ""
    LastActivityAt := now
    clients := []
    connectedClientId := ""
    closed := false
    ptyClosed := false
    tmuxKilled := false }

/-- Session.AddClient (session.go lines 108-115): insert into the map, set
connectedClientId, clear DisconnectedAt, bump LastActivityAt. There is no
closed check in the source. -/
def Session.AddClient (s : Session) (conn : Nat) (clientID : String) (now : Int) : Session :=
  { s with
    clients := mapInsert s.clients conn clientID
    connectedClientId := clientID
    DisconnectedAt := none
    LastActivityAt := now }

/-- Session.UpdateActivity (session.go lines 118-122). -/
def Session.UpdateActivity (s : Session) (now : Int) : Session :=
  { s with LastActivityAt := now }

/-- Session.RemoveClient (session.go lines 131-144): delete the entry,
clear connectedClientId when the removed client was the active one, and
set DisconnectedAt to now whenever the map is empty afterwards. -/
def Session.RemoveClient (s : Session) (conn : Nat) (now : Int) : Session :=
  let clientID := mapLookup s.clients conn
  let clients2 := mapErase s.clients conn
  { s with
    clients := clients2
    connectedClientId := if s.connectedClientId = clientID then "" else s.connectedClientId
    DisconnectedAt := if clients2.length = 0 then some now else s.DisconnectedAt }

/-- Session.ClientCount (session.go lines 146-150). -/
def Session.ClientCount (s : Session) : Nat :=
  s.clients.length

/-- Session.IsOccupied (session.go lines 153-157). -/
def Session.IsOccupied (s : Session) : Bool :=
  s.connectedClientId ≠ ""

/-- Session.ConnectedClientID (session.go lines 160-164). -/
def Session.ConnectedClientID (s : Session) : String :=
  s.connectedClientId

/-- Session.DisconnectAllClients (session.go lines 171-185): snapshot the
count under the lock, close every socket, reset the map, clear
connectedClientId, return the count. -/
def Session.DisconnectAllClients (s : Session) : Nat × Session :=
  (s.clients.length,
   { s with clients := [], connectedClientId := "" })

/-- Session.Write (session.go lines 187-190): forwards to the PTY; the
session state is untouched; the backend error surfaces. `backendOk`
is the oracle for the PTY write outcome; the returned Bool is true
exactly when an error is returned. -/
def Session.Write (s : Session) (backendOk : Bool) : Session × Bool :=
  (s, !backendOk)

/-- Session.Resize (session.go lines 192-196): updates Cols and Rows
FIRST, then forwards to the PTY; the backend error surfaces. The returned
Bool is true exactly when an error is returned. -/
def Session.Resize (s : Session) (cols rows : Nat) (backendOk : Bool) : Session × Bool :=
  ({ s with Cols := cols, Rows := rows }, !backendOk)

/-- Session.Close (session.go lines 201-217): guarded by closeOnce; closes
done, empties the client map, clears connectedClientId, closes the PTY
attachment (not the tmux session). -/
def Session.Close (s : Session) : Session :=
  if s.closed then s
  else
    { s with
      closed := true
      clients := []
      connectedClientId := ""
      ptyClosed := true }

/-- Session.CloseWithTmux (session.go lines 221-237): as Close, but the
PTY teardown also kills the backing tmux session when present. -/
def Session.CloseWithTmux (s : Session) : Session :=
  if s.closed then s
  else
    { s with
      closed := true
      clients := []
      connectedClientId := ""
      ptyClosed := true
      tmuxKilled := s.TmuxSessionName ≠ "" }

/-- Session.ReplacePTY (session.go lines 240-255): closes the old PTY,
installs the fresh one, re-arms the done channel and the once-guard. -/
def Session.ReplacePTY (s : Session) : Session :=
  { s with closed := false, ptyClosed := false }

/-- Session.IsClosed (session.go lines 257-264). -/
def Session.IsClosed (s : Session) : Bool :=
  s.closed

/-- PoolConfig (pool.go lines 16-25), restricted to the fields the claims
touch. -/
structure PoolConfig where
  SessionTimeout : Int
  CleanupInterval : Int
  DefaultCommand : String
  DefaultArgs : List String
  DefaultWorkdir : String
  TmuxEnabled : Bool
deriving DecidableEq

/-- Pool state (pool.go lines 27-31): a registry of sessions keyed by id. -/
structure Pool where
  config : PoolConfig
  sessions : List (String × Session)
deriving DecidableEq

/-- The arguments of the pty.Spawn / pty.SpawnWithTmux call issued by
Pool.Create, recorded so that default resolution can be stated. -/
structure SpawnCall where
  tmuxName : String
  command : String
  args : List String
  cols : Nat
  rows : Nat
  workdir : String
deriving DecidableEq

/-- The shell heuristic of Pool.Create (pool.go line 51):
strings.HasSuffix(cmd, "sh") || strings.Contains(cmd, "/sh"), stated on
character lists (equivalent on UTF-8 for the ASCII patterns "sh" and
"/sh" because no continuation byte of a multibyte character is ASCII). -/
def looksLikePosixShell (cmd : String) : Bool :=
  decide (List.IsSuffix "sh".toList cmd.toList) ||
    decide (List.IsInfix "/sh".toList cmd.toList)

/-- Pool.Create (pool.go lines 40-90): resolve defaults, generate the id
"pty_" plus a random token, spawn (with tmux when enabled), build the
session and insert it. `token` stands for xid.New().String() and
`spawnOk` is the oracle for the spawn outcome. -/
def Pool.Create (p : Pool) (cols rows : Nat) (command : String) (args : List String)
    (workdir : String) (token : String) (spawnOk : Bool) (now : Int) :
    Pool × Option Session × SpawnCall :=
  let cmd := if command = "" then p.config.DefaultCommand else command
  let cmdArgs0 := if args.length = 0 then p.config.DefaultArgs else args
  let cmdArgs :=
    if cmdArgs0.length = 0 ∧ looksLikePosixShell cmd then ["-l", "-i"] else cmdArgs0
  let wd := if workdir = "" then p.config.DefaultWorkdir else workdir
  let id := "pty_" ++ token
  let tmuxName := if p.config.TmuxEnabled then id else ""
  let call : SpawnCall :=
    { tmuxName := tmuxName, command := cmd, args := cmdArgs
      cols := cols, rows := rows, workdir := wd }
  if spawnOk then
    let s := { NewSession id cols rows now with TmuxSessionName := tmuxName }
    ({ p with sessions := p.sessions ++ [(id, s)] }, some s, call)
  else
    (p, none, call)

/-- Pool.ReattachTmux (pool.go lines 93-119): refuses when tmux is
disabled or the session has no tmux name, when the external tmux session
is gone, when the session is closed, or when the attach fails; otherwise
replaces the PTY. `sessionExists` is the oracle for
tmux.SessionExists and `attachOk` for pty.AttachTmux. -/
def Pool.ReattachTmux (p : Pool) (s : Session) (sessionExists attachOk : Bool) :
    Session × Option String :=
  if ¬p.config.TmuxEnabled ∨ s.TmuxSessionName = "" then
    (s, some "is not a tmux session")
  else if ¬sessionExists then
    (s, some "no longer exists")
  else if s.closed then
    (s, some "session is closed and cannot be reattached")
  else if ¬attachOk then
    (s, some "failed to reattach to tmux session")
  else
    (s.ReplacePTY, none)

/-- Lookup in the pool registry. -/
def lookupSession : List (String × Session) → String → Option Session
  | [], _ => none
  | e :: t, id => if e.1 = id then some e.2 else lookupSession t id

/-- Pool.Get (pool.go lines 121-129): present and not closed. -/
def Pool.Get (p : Pool) (id : String) : Option Session :=
  match lookupSession p.sessions id with
  | some s => if s.closed then none else some s
  | none => none

/-- Pool.Remove (pool.go lines 131-139): when present, CloseWithTmux and
delete from the registry; absent ids are untouched. The removed entry
leaves the pool state, so only the deletion is visible here. -/
def Pool.Remove (p : Pool) (id : String) : Pool :=
  { p with sessions := p.sessions.filter (fun e => !(e.1 = id : Bool)) }

/-- The per-session expiry test of Pool.cleanup (pool.go lines 168-169):
DisconnectedAt non-nil, zero clients, and disconnected for strictly
longer than SessionTimeout. -/
def sessionExpired (cfg : PoolConfig) (now : Int) (s : Session) : Bool :=
  match s.DisconnectedAt with
  | some d => s.ClientCount = 0 && now - d > cfg.SessionTimeout
  | none => false

/-- The removal test of Pool.cleanup (pool.go lines 162-174): closed
sessions are dropped outright; otherwise the expiry test applies. -/
def shouldReap (cfg : PoolConfig) (now : Int) (s : Session) : Bool :=
  s.closed || sessionExpired cfg now s

/-- Pool.cleanup (pool.go lines 155-183): one sweep of the idle reaper.
Returns the new pool plus the list of removed entries after the
CloseWithTmux that the second loop applies to each of them. -/
def Pool.cleanup (p : Pool) (now : Int) : Pool × List (String × Session) :=
  ({ p with sessions := p.sessions.filter (fun e => !shouldReap p.config now e.2) },
   (p.sessions.filter (fun e => shouldReap p.config now e.2)).map
     (fun e => (e.1, e.2.CloseWithTmux)))

/-- Write back the (in Go, pointer-shared) session into the registry. -/
def Pool.setSession (p : Pool) (id : String) (s : Session) : Pool :=
  { p with sessions := p.sessions.map (fun e => if e.1 = id then (id, s) else e) }

/-- Handler.createSession (handler, lines 75-98): defaults cols to 80 and
rows to 24 when zero, then calls Pool.Create and returns the new id. -/
def Handler.createSession (p : Pool) (reqCols reqRows : Nat) (command : String)
    (args : List String) (workdir : String) (token : String) (spawnOk : Bool) (now : Int) :
    Pool × Option String × SpawnCall :=
  let cols := if reqCols = 0 then 80 else reqCols
  let rows := if reqRows = 0 then 24 else reqRows
  let r := p.Create cols rows command args workdir token spawnOk now
  (r.1, r.2.1.map Session.ID, r.2.2)

/-- Handler.updateSession (handler, lines 107-131): 404 when the session
is absent or closed, otherwise resize when a size is supplied; a resize
error yields 500. Returns the pool (the session is mutated through the
shared pointer even when resize fails) and the HTTP status. -/
def Handler.updateSession (p : Pool) (id : String) (size : Option (Nat × Nat))
    (backendOk : Bool) : Pool × Nat :=
  match p.Get id with
  | none => (p, 404)
  | some s =>
    match size with
    | none => (p, 200)
    | some (c, r) =>
      let res := s.Resize c r backendOk
      (p.setSession id res.1, if res.2 then 500 else 200)

/-- Handler.takeoverSession (handler, lines 179-211): 404 when absent or
closed; otherwise pick the requested client id or the generated one,
disconnect every client with close code 4001, and answer with success,
the disconnected count and the new client id. -/
def Handler.takeoverSession (p : Pool) (id : String) (reqClientID genClientID : String) :
    Pool × Option (Bool × Nat × String) :=
  match p.Get id with
  | none => (p, none)
  | some s =>
    let newClientID := if reqClientID = "" then genClientID else reqClientID
    let r := s.DisconnectAllClients
    (p.setSession id r.2, some (true, r.1, newClientID))

/-- The session states reachable through the public operations of the
program: a fresh NewSession (with the TmuxSessionName assignment done by
Pool.Create), and every operation the session and pool layers can apply
to it. AddClient and RemoveClient are included unconditionally because
the source performs no closed check in them. -/
inductive Reachable : Session → Prop where
  | new (id : String) (cols rows : Nat) (now : Int) :
      Reachable (NewSession id cols rows now)
  | setTmuxName (s : Session) (name : String) (h : Reachable s) :
      Reachable { s with TmuxSessionName := name }
  | add (s : Session) (conn : Nat) (clientID : String) (now : Int) (h : Reachable s) :
      Reachable (s.AddClient conn clientID now)
  | remove (s : Session) (conn : Nat) (now : Int) (h : Reachable s) :
      Reachable (s.RemoveClient conn now)
  | updateActivity (s : Session) (now : Int) (h : Reachable s) :
      Reachable (s.UpdateActivity now)
  | disconnectAll (s : Session) (h : Reachable s) :
      Reachable s.DisconnectAllClients.2
  | close (s : Session) (h : Reachable s) :
      Reachable s.Close
  | closeWithTmux (s : Session) (h : Reachable s) :
      Reachable s.CloseWithTmux
  | resize (s : Session) (cols rows : Nat) (backendOk : Bool) (h : Reachable s) :
      Reachable (s.Resize cols rows backendOk).1
  | reattach (p : Pool) (s : Session) (sessionExists attachOk : Bool) (h : Reachable s) :
      Reachable (p.ReattachTmux s sessionExists attachOk).1

/-- Erasing a key yields a sublist of the client map. -/
lemma mapErase_sublist (m : List (Nat × String)) (k : Nat) :
    List.Sublist (mapErase m k) m := by
  induction m with
  | nil => simp [mapErase]
  | cons e t ih =>
    simp only [mapErase]
    split
    · exact ih.cons e
    · exact ih.cons₂ e

/-- The keys of the erased map form a sublist of the original keys. -/
lemma mapKeys_mapErase_sublist (m : List (Nat × String)) (k : Nat) :
    List.Sublist (mapKeys (mapErase m k)) (mapKeys m) :=
  (mapErase_sublist m k).map Prod.fst

/-- The erased key no longer occurs among the keys. -/
lemma not_mem_mapKeys_mapErase (m : List (Nat × String)) (k : Nat) :
    k ∉ mapKeys (mapErase m k) := by
  induction m with
  | nil => simp [mapErase, mapKeys]
  | cons e t ih =>
    simp only [mapErase]
    split
    · exact ih
    · next h =>
      simp only [mapKeys, List.map_cons, List.mem_cons]
      rintro (h1 | h2)
      · exact h h1.symm
      · exact ih h2

/-- Entries whose key differs from the erased one survive the erase. -/
lemma mem_mapErase_of_mem (m : List (Nat × String)) (q : Nat × String) (k : Nat)
    (hq : q ∈ m) (hne : q.1 ≠ k) : q ∈ mapErase m k := by
  induction m with
  | nil => simp at hq
  | cons e t ih =>
    simp only [List.mem_cons] at hq
    simp only [mapErase]
    rcases hq with rfl | hq
    · rw [if_neg hne]
      exact List.mem_cons_self _ _
    · split
      · exact ih hq
      · exact List.mem_cons_of_mem _ (ih hq)

/-- Inserting preserves key uniqueness. -/
lemma nodup_mapKeys_mapInsert (m : List (Nat × String)) (k : Nat) (v : String)
    (h : (mapKeys m).Nodup) : (mapKeys (mapInsert m k v)).Nodup := by
  have h1 : (mapKeys (mapErase m k)).Nodup := (mapKeys_mapErase_sublist m k).nodup h
  have h2 := not_mem_mapKeys_mapErase m k
  simp only [mapInsert, mapKeys, List.map_append, List.map_cons, List.map_nil]
  simp only [mapKeys] at h1 h2
  simp [List.nodup_append, h1, h2]

/-- With unique keys, lookup of a present key returns its value. -/
lemma mapLookup_eq_of_mem (m : List (Nat × String)) (k : Nat) (v : String)
    (hnd : (mapKeys m).Nodup) (hm : (k, v) ∈ m) : mapLookup m k = v := by
  induction m with
  | nil => simp at hm
  | cons e t ih =>
    simp only [mapKeys, List.map_cons, List.nodup_cons] at hnd
    simp only [List.mem_cons] at hm
    simp only [mapLookup]
    rcases hm with rfl | hm
    · simp
    · split
      · next he =>
        exfalso
        apply hnd.1
        rw [he]
        exact List.mem_map.mpr ⟨(k, v), hm, rfl⟩
      · exact ih hnd.2 hm

/-- Both branches of ReattachTmux leave the session unchanged or replace
its PTY. -/
lemma reattach_fst (p : Pool) (s : Session) (e a : Bool) :
    (p.ReattachTmux s e a).1 = s ∨ (p.ReattachTmux s e a).1 = s.ReplacePTY := by
  simp only [Pool.ReattachTmux]
  split
  · exact Or.inl rfl
  · split
    · exact Or.inl rfl
    · split
      · exact Or.inl rfl
      · split
        · exact Or.inl rfl
        · exact Or.inr rfl

/-- The inductive session invariant: a non-nil DisconnectedAt implies an
empty client map, a non-empty connectedClientId always names a still
attached client, and the client-map keys are unique. -/
def SessionInv (s : Session) : Prop :=
  (∀ d, s.DisconnectedAt = some d → s.clients = []) ∧
  (s.connectedClientId ≠ "" → ∃ q ∈ s.clients, q.2 = s.connectedClientId) ∧
  (mapKeys s.clients).Nodup

/-- Every reachable session state satisfies the invariant. -/
lemma reachable_sessionInv (s : Session) (h : Reachable s) : SessionInv s := by
  induction h with
  | new id cols rows now =>
    refine ⟨?_, ?_, ?_⟩ <;> simp [NewSession, mapKeys]
  | setTmuxName s name h ih =>
    exact ih
  | add s conn clientID now h ih =>
    refine ⟨?_, ?_, ?_⟩
    · intro d hd
      simp [Session.AddClient] at hd
    · intro _
      exact ⟨(conn, clientID), by simp [Session.AddClient, mapInsert], rfl⟩
    · exact nodup_mapKeys_mapInsert _ _ _ ih.2.2
  | remove s conn now h ih =>
    refine ⟨?_, ?_, ?_⟩
    · intro d hd
      simp only [Session.RemoveClient] at hd ⊢
      split at hd
      · next hlen => exact List.length_eq_zero.mp hlen
      · next hlen =>
        exfalso
        apply hlen
        have hc : s.clients = [] := ih.1 d hd
        simp [hc, mapErase]
    · intro hne
      simp only [Session.RemoveClient] at hne ⊢
      by_cases hcid : s.connectedClientId = mapLookup s.clients conn
      · rw [if_pos hcid] at hne
        exact absurd rfl hne
      · rw [if_neg hcid] at hne ⊢
        obtain ⟨q, hq, hqv⟩ := ih.2.1 hne
        refine ⟨q, ?_, hqv⟩
        apply mem_mapErase_of_mem s.clients q conn hq
        intro hq1
        apply hcid
        rw [← hqv]
        have hmem : (conn, q.2) ∈ s.clients := by
          obtain ⟨q1, q2⟩ := q
          simp only at hq1
          subst hq1
          exact hq
        exact (mapLookup_eq_of_mem s.clients conn q.2 ih.2.2 hmem).symm
    · exact (mapKeys_mapErase_sublist _ _).nodup ih.2.2
  | updateActivity s now h ih =>
    exact ih
  | disconnectAll s h ih =>
    refine ⟨?_, ?_, ?_⟩
    · intro d _
      rfl
    · intro hne
      simp [Session.DisconnectAllClients] at hne
    · simp [Session.DisconnectAllClients, mapKeys]
  | close s h ih =>
    simp only [Session.Close]
    split
    · exact ih
    · refine ⟨fun d _ => rfl, ?_, ?_⟩
      · intro hne
        simp at hne
      · simp [mapKeys]
  | closeWithTmux s h ih =>
    simp only [Session.CloseWithTmux]
    split
    · exact ih
    · refine ⟨fun d _ => rfl, ?_, ?_⟩
      · intro hne
        simp at hne
      · simp [mapKeys]
  | resize s cols rows backendOk h ih =>
    exact ih
  | reattach p s sessionExists attachOk h ih =>
    rcases reattach_fst p s sessionExists attachOk with hr | hr <;> rw [hr]
    · exact ih
    · exact ih

/-- Close is idempotent. -/
lemma close_close (s : Session) : s.Close.Close = s.Close := by
  by_cases h : s.closed <;> simp [Session.Close, h]

/-- CloseWithTmux after Close is a no-op. -/
lemma close_closeWithTmux (s : Session) : s.Close.CloseWithTmux = s.Close := by
  by_cases h : s.closed <;> simp [Session.Close, Session.CloseWithTmux, h]

/-- Close after CloseWithTmux is a no-op. -/
lemma closeWithTmux_close (s : Session) : s.CloseWithTmux.Close = s.CloseWithTmux := by
  by_cases h : s.closed <;> simp [Session.Close, Session.CloseWithTmux, h]

/-- CloseWithTmux is idempotent. -/
lemma closeWithTmux_closeWithTmux (s : Session) :
    s.CloseWithTmux.CloseWithTmux = s.CloseWithTmux := by
  by_cases h : s.closed <;> simp [Session.CloseWithTmux, h]

/-- C1 counterexample: immediately after NewSession the client map is
empty while DisconnectedAt is nil, so the claimed equivalence fails in
the initial state. -/
theorem C1_counterexample :
    (NewSession "s0" 80 24 0).clients = [] ∧
    (NewSession "s0" 80 24 0).DisconnectedAt = none ∧
    ¬((NewSession "s0" 80 24 0).clients = [] ↔
        (NewSession "s0" 80 24 0).DisconnectedAt ≠ none) := by
  refine ⟨rfl, rfl, ?_⟩
  intro hiff
  exact (hiff.mp rfl) rfl

/-- C1 (amended): in every reachable state a non-nil DisconnectedAt
implies an empty client map; after every AddClient the map is non-empty
and DisconnectedAt is nil, and after every RemoveClient the map is empty
exactly when DisconnectedAt records that call's time; but in the fresh
state after NewSession the map is empty while DisconnectedAt is nil. -/
theorem C1_clients_empty_iff_disconnected (s : Session) (h : Reachable s) :
    (∀ d, s.DisconnectedAt = some d → s.clients = []) ∧
    (∀ conn clientID now,
      (s.AddClient conn clientID now).clients ≠ [] ∧
      (s.AddClient conn clientID now).DisconnectedAt = none) ∧
    (∀ conn now,
      ((s.RemoveClient conn now).clients = [] ↔
        (s.RemoveClient conn now).DisconnectedAt = some now)) := by
  have inv := reachable_sessionInv s h
  refine ⟨inv.1, ?_, ?_⟩
  · intro conn clientID now
    exact ⟨by simp [Session.AddClient, mapInsert], rfl⟩
  · intro conn now
    simp only [Session.RemoveClient]
    constructor
    · intro hc
      rw [if_pos (by simp [hc])]
    · intro hd
      split at hd
      · next hlen => exact List.length_eq_zero.mp hlen
      · next hlen =>
        exfalso
        exact hlen (by simp [inv.1 now hd, mapErase])

/-- C1 witness: the amended statement evaluated on a fresh session. -/
theorem C1_clients_empty_iff_disconnected_witness :
    ((NewSession "w" 80 24 0).AddClient 1 "a" 2).clients ≠ [] ∧
    ((NewSession "w" 80 24 0).AddClient 1 "a" 2).DisconnectedAt = none ∧
    (((NewSession "w" 80 24 0).RemoveClient 0 3).clients = [] ↔
      ((NewSession "w" 80 24 0).RemoveClient 0 3).DisconnectedAt = some 3) := by
  have h := C1_clients_empty_iff_disconnected (NewSession "w" 80 24 0)
    (Reachable.new "w" 80 24 0)
  exact ⟨(h.2.1 1 "a" 2).1, (h.2.1 1 "a" 2).2, h.2.2 0 3⟩

/-- C2 counterexample: RemoveClient invoked on a closed session neither
returns a closed indication (it returns nothing) nor leaves the state
unchanged: it sets DisconnectedAt. -/
theorem C2_counterexample :
    (NewSession "x" 80 24 0).Close.closed = true ∧
    (NewSession "x" 80 24 0).Close.RemoveClient 1 5 ≠ (NewSession "x" 80 24 0).Close := by
  refine ⟨by decide, ?_⟩
  intro he
  have hd := congrArg Session.DisconnectedAt he
  simp [Session.RemoveClient, Session.Close, NewSession, mapErase, mapLookup] at hd

/-- C2 (amended): the closed flag is monotone: no public operation resets
it (ReattachTmux refuses closed sessions, so ReplacePTY never runs on
one); Close and CloseWithTmux on a closed session are idempotent no-ops
and Write never touches session state; but AddClient and RemoveClient
perform no closed check: on a closed session AddClient still registers
the client and RemoveClient still refreshes DisconnectedAt. -/
theorem C2_closed_monotone (s : Session) (conn : Nat) (clientID : String) (now : Int)
    (cols rows : Nat) (backendOk : Bool) (p : Pool) (e a : Bool) :
    (s.AddClient conn clientID now).closed = s.closed ∧
    (s.RemoveClient conn now).closed = s.closed ∧
    (s.UpdateActivity now).closed = s.closed ∧
    s.DisconnectAllClients.2.closed = s.closed ∧
    (s.Resize cols rows backendOk).1.closed = s.closed ∧
    (s.Write backendOk).1 = s ∧
    s.Close.closed = true ∧
    s.CloseWithTmux.closed = true ∧
    (p.ReattachTmux s e a).1.closed = s.closed ∧
    s.Close.Close = s.Close ∧
    s.Close.CloseWithTmux = s.Close ∧
    s.CloseWithTmux.Close = s.CloseWithTmux ∧
    s.CloseWithTmux.CloseWithTmux = s.CloseWithTmux ∧
    (({ s with closed := false } : Session).Close.AddClient conn clientID now).clients =
      [(conn, clientID)] ∧
    (({ s with closed := false } : Session).Close.RemoveClient conn now).DisconnectedAt =
      some now := by
  refine ⟨rfl, rfl, rfl, rfl, rfl, rfl, ?_, ?_, ?_, close_close s, close_closeWithTmux s,
    closeWithTmux_close s, closeWithTmux_closeWithTmux s, ?_, ?_⟩
  · by_cases h : s.closed <;> simp [Session.Close, h]
  · by_cases h : s.closed <;> simp [Session.CloseWithTmux, h]
  · simp only [Pool.ReattachTmux]
    split
    · rfl
    · split
      · rfl
      · split
        · rfl
        · next h =>
          split
          · rfl
          · simp only [Session.ReplacePTY]
            simp only [Bool.not_eq_true] at h
            exact h.symm
  · simp [Session.Close, Session.AddClient, mapInsert, mapErase]
  · simp [Session.Close, Session.RemoveClient, mapErase]

/-- The GET /pty/id response (handler, lines 140-165). -/
structure SessionInfoResponse where
  ID : String
  Occupied : Bool
  ClientInfo : String
  Cols : Nat
  Rows : Nat
deriving DecidableEq

/-- Handler.getSession (handler, lines 148-165): 404 when absent or
closed, else a snapshot built from IsOccupied and ConnectedClientID. -/
def Handler.getSession (p : Pool) (id : String) : Option SessionInfoResponse :=
  (p.Get id).map (fun s =>
    { ID := s.ID
      Occupied := s.IsOccupied
      ClientInfo := s.ConnectedClientID
      Cols := s.Cols
      Rows := s.Rows })

/-- C9 counterexample: after adding clients "a" then "b" and removing the
socket of "b", connectedClientId is empty although client "a" is still
attached, so connectedClientId is neither the most recently added client
still attached nor empty exactly when no clients are attached. -/
theorem C9_counterexample :
    ((((NewSession "s" 80 24 0).AddClient 1 "a" 0).AddClient 2 "b" 0).RemoveClient 2 1).connectedClientId
      = "" ∧
    ((((NewSession "s" 80 24 0).AddClient 1 "a" 0).AddClient 2 "b" 0).RemoveClient 2 1).clients
      = [(1, "a")] := by
  constructor <;> rfl

/-- C9 (amended): connectedClientId is set by each AddClient to that
client's id and cleared by RemoveClient exactly when the removed socket's
client id matches it; in every reachable state a non-empty
connectedClientId names a still-attached client (so it is empty whenever
no clients are attached, but it may also be empty while clients remain);
GET /pty/id reports it as occupied and clientInfo. -/
theorem C9_connected_client_id (s : Session) (h : Reachable s) :
    (s.connectedClientId ≠ "" → ∃ q ∈ s.clients, q.2 = s.connectedClientId) ∧
    (s.clients = [] → s.connectedClientId = "") ∧
    (∀ conn clientID now, (s.AddClient conn clientID now).connectedClientId = clientID) ∧
    (∀ conn now, (s.RemoveClient conn now).connectedClientId =
      if s.connectedClientId = mapLookup s.clients conn then "" else s.connectedClientId) ∧
    (s.IsOccupied = true ↔ s.connectedClientId ≠ "") ∧
    (∀ p id, p.Get id = some s → Handler.getSession p id =
      some { ID := s.ID, Occupied := s.IsOccupied, ClientInfo := s.connectedClientId,
             Cols := s.Cols, Rows := s.Rows }) := by
  have inv := reachable_sessionInv s h
  refine ⟨inv.2.1, ?_, fun _ _ _ => rfl, fun _ _ => rfl, ?_, ?_⟩
  · intro hc
    by_contra hne
    obtain ⟨q, hq, _⟩ := inv.2.1 hne
    rw [hc] at hq
    simp at hq
  · simp [Session.IsOccupied]
  · intro p id hget
    simp [Handler.getSession, hget, Session.ConnectedClientID]

/-- C9 witness: the amended statement evaluated on a two-client session. -/
theorem C9_connected_client_id_witness :
    ((((NewSession "s" 80 24 0).AddClient 1 "a" 0).AddClient 2 "b" 0).clients = [] →
      (((NewSession "s" 80 24 0).AddClient 1 "a" 0).AddClient 2 "b" 0).connectedClientId = "") ∧
    ((((NewSession "s" 80 24 0).AddClient 1 "a" 0).AddClient 2 "b" 0).AddClient 3 "c" 1).connectedClientId
      = "c" := by
  have h := C9_connected_client_id
    (((NewSession "s" 80 24 0).AddClient 1 "a" 0).AddClient 2 "b" 0)
    (Reachable.add _ 2 "b" 0 (Reachable.add _ 1 "a" 0 (Reachable.new "s" 80 24 0)))
  exact ⟨h.2.1, h.2.2.1 3 "c" 1⟩

/-- C10: RemoveClient with any socket while the client map is empty sets
DisconnectedAt to the call's time: it is not a no-op when the old
timestamp differs, and it postpones the idle reaper, since expiry after
the refresh implies expiry would already have held with the old
timestamp. -/
theorem C10_remove_refreshes_disconnectedAt (s : Session) (conn : Nat) (now : Int)
    (h : s.clients = []) :
    (s.RemoveClient conn now).DisconnectedAt = some now ∧
    (∀ d, s.DisconnectedAt = some d → d ≠ now → s.RemoveClient conn now ≠ s) ∧
    (∀ d cfg t, s.DisconnectedAt = some d → d ≤ now →
      sessionExpired cfg t (s.RemoveClient conn now) = true →
      sessionExpired cfg t s = true) := by
  refine ⟨by simp [Session.RemoveClient, h, mapErase], ?_, ?_⟩
  · intro d hd hdne heq
    apply hdne
    have hda := congrArg Session.DisconnectedAt heq
    simp only [Session.RemoveClient, h, mapErase, List.length_nil, if_pos rfl] at hda
    rw [hd] at hda
    exact (Option.some_inj.mp hda).symm
  · intro d cfg t hd hle hexp
    have h1 : t - now > cfg.SessionTimeout := by
      simpa [sessionExpired, Session.RemoveClient, h, mapErase, Session.ClientCount] using hexp
    have h2 : t - d > cfg.SessionTimeout := by omega
    simpa [sessionExpired, hd, Session.ClientCount, h] using h2

/-- A small config with a 2-unit timeout, used by concrete witnesses. -/
def cfgT2 : PoolConfig :=
  { SessionTimeout := 2
    CleanupInterval := 10
    DefaultCommand := ""
    DefaultArgs := []
    DefaultWorkdir := ""
    TmuxEnabled := false }

/-- C10 witness: refreshing a session disconnected at time 1 by a stray
RemoveClient at time 5 moves DisconnectedAt to 5, changes the state, and
an expiry of the refreshed state at time 9 with timeout 2 implies the
original would also have expired. -/
theorem C10_remove_refreshes_disconnectedAt_witness :
    (((NewSession "w" 80 24 0).RemoveClient 0 1).RemoveClient 3 5).DisconnectedAt = some 5 ∧
    ((NewSession "w" 80 24 0).RemoveClient 0 1).RemoveClient 3 5 ≠
      (NewSession "w" 80 24 0).RemoveClient 0 1 ∧
    sessionExpired cfgT2 9 ((NewSession "w" 80 24 0).RemoveClient 0 1) = true := by
  have h := C10_remove_refreshes_disconnectedAt ((NewSession "w" 80 24 0).RemoveClient 0 1)
    3 5 (by decide)
  refine ⟨h.1, h.2.1 1 (by decide) (by decide), ?_⟩
  exact h.2.2 1 cfgT2 9 (by decide) (by decide) (by decide)

/-- A small tmux-enabled config, used by concrete witnesses. -/
def cfg0 : PoolConfig :=
  { SessionTimeout := 30
    CleanupInterval := 10
    DefaultCommand := "/bin/bash"
    DefaultArgs := []
    DefaultWorkdir := "/root"
    TmuxEnabled := true }

/-- A session with two attached clients, used by concrete witnesses. -/
def sess2 : Session :=
  ((NewSession "pty_a" 80 24 0).AddClient 1 "a" 0).AddClient 2 "b" 0

/-- A pool holding `sess2`, used by concrete witnesses. -/
def pool2 : Pool :=
  { config := cfg0, sessions := [("pty_a", sess2)] }

/-- C3: DisconnectAllClients returns the number of clients attached when
it takes the lock and leaves connectedClientId empty and ClientCount
zero; the takeover handler reports that number as disconnectedCount
together with the chosen new client id. -/
theorem C3_takeover_disconnected_count (p : Pool) (id : String) (s : Session)
    (reqClientID genClientID : String) (h : p.Get id = some s) :
    s.DisconnectAllClients.1 = s.ClientCount ∧
    s.DisconnectAllClients.2.connectedClientId = "" ∧
    s.DisconnectAllClients.2.ClientCount = 0 ∧
    (Handler.takeoverSession p id reqClientID genClientID).2 =
      some (true, s.ClientCount,
        if reqClientID = "" then genClientID else reqClientID) := by
  refine ⟨rfl, rfl, rfl, ?_⟩
  simp [Handler.takeoverSession, h, Session.DisconnectAllClients, Session.ClientCount]

/-- C3 witness: taking over the two-client pool reports exactly 2. -/
theorem C3_takeover_disconnected_count_witness :
    sess2.DisconnectAllClients.1 = 2 ∧
    (Handler.takeoverSession pool2 "pty_a" "" "gen").2 = some (true, 2, "gen") := by
  have h := C3_takeover_disconnected_count pool2 "pty_a" sess2 "" "gen" (by decide)
  constructor
  · rw [h.1]
    decide
  · rw [h.2.2.2]
    decide

/-- The removal test of the reaper, spelled out as a proposition. -/
lemma shouldReap_iff (cfg : PoolConfig) (now : Int) (s : Session) :
    shouldReap cfg now s = true ↔
      (s.closed = true ∨ ∃ d, s.DisconnectedAt = some d ∧ s.ClientCount = 0 ∧
        now - d > cfg.SessionTimeout) := by
  cases hd : s.DisconnectedAt with
  | none => simp [shouldReap, sessionExpired, hd]
  | some d => simp [shouldReap, sessionExpired, hd, Session.ClientCount]

/-- C4: a reaper sweep drops exactly the closed sessions plus the expired
ones (DisconnectedAt non-nil, zero clients, disconnected strictly longer
than SessionTimeout); every dropped entry is destroyed with
CloseWithTmux; a dropped non-closed session has zero clients; and when a
dropped session still has clients it must be closed, so the CloseWithTmux
destruction is a no-op (nothing live is ever destroyed). -/
theorem C4_cleanup_reaps_exactly (p : Pool) (now : Int) (id : String) (s : Session)
    (h : (id, s) ∈ p.sessions) :
    ((id, s) ∈ (p.cleanup now).1.sessions ↔
      ¬(s.closed = true ∨ ∃ d, s.DisconnectedAt = some d ∧ s.ClientCount = 0 ∧
          now - d > p.config.SessionTimeout)) ∧
    ((s.closed = true ∨ ∃ d, s.DisconnectedAt = some d ∧ s.ClientCount = 0 ∧
        now - d > p.config.SessionTimeout) →
      (id, s.CloseWithTmux) ∈ (p.cleanup now).2) ∧
    (s.closed = false →
      (s.closed = true ∨ ∃ d, s.DisconnectedAt = some d ∧ s.ClientCount = 0 ∧
          now - d > p.config.SessionTimeout) →
      s.ClientCount = 0) ∧
    (s.ClientCount > 0 →
      (s.closed = true ∨ ∃ d, s.DisconnectedAt = some d ∧ s.ClientCount = 0 ∧
          now - d > p.config.SessionTimeout) →
      s.CloseWithTmux = s) := by
  refine ⟨?_, ?_, ?_, ?_⟩
  · rw [← shouldReap_iff p.config now s]
    simp [Pool.cleanup, List.mem_filter, h]
  · intro hcond
    rw [← shouldReap_iff p.config now s] at hcond
    simp only [Pool.cleanup]
    exact List.mem_map.mpr ⟨(id, s), List.mem_filter.mpr ⟨h, hcond⟩, rfl⟩
  · intro hclosed hcond
    rcases hcond with hc | ⟨d, _, hcount, _⟩
    · simp [hclosed] at hc
    · exact hcount
  · intro hcount hcond
    rcases hcond with hc | ⟨d, _, hzero, _⟩
    · simp [Session.CloseWithTmux, hc]
    · omega

/-- A session that disconnected at time 0, used by concrete witnesses. -/
def sessD : Session := (NewSession "pty_d" 80 24 0).RemoveClient 0 0

/-- A pool holding the idle `sessD` under a 2-unit timeout. -/
def poolD : Pool := { config := cfgT2, sessions := [("pty_d", sessD)] }

/-- C4 witness: at time 100 the sweep destroys the session idle since
time 0 with CloseWithTmux and drops it from the registry. -/
theorem C4_cleanup_reaps_exactly_witness :
    ("pty_d", sessD.CloseWithTmux) ∈ (poolD.cleanup 100).2 ∧
    ("pty_d", sessD) ∉ (poolD.cleanup 100).1.sessions := by
  have h := C4_cleanup_reaps_exactly poolD 100 "pty_d" sessD (by decide)
  have hcond : sessD.closed = true ∨ ∃ d, sessD.DisconnectedAt = some d ∧
      sessD.ClientCount = 0 ∧ (100 : Int) - d > poolD.config.SessionTimeout :=
    Or.inr ⟨0, by decide, by decide, by decide⟩
  exact ⟨h.2.1 hcond, fun hm => (h.1.mp hm) hcond⟩

/-- C5 counterexample: a failed Resize leaves Cols and Rows at the newly
requested values, not the previous ones. -/
theorem C5_counterexample :
    ((NewSession "x" 80 24 0).Resize 120 40 false).2 = true ∧
    ((NewSession "x" 80 24 0).Resize 120 40 false).1.Cols ≠ 80 ∧
    ((NewSession "x" 80 24 0).Resize 120 40 false).1.Cols = 120 ∧
    ((NewSession "x" 80 24 0).Resize 120 40 false).1.Rows = 40 := by
  exact ⟨rfl, by decide, rfl, rfl⟩

/-- C5 (amended): when the backend resize fails the error surfaces (the
PUT handler answers 500) and the session stays alive (closed unchanged),
but its Cols and Rows fields hold the NEW requested size, because the
source updates the fields before forwarding to the backend. -/
theorem C5_resize_failure (p : Pool) (id : String) (s : Session) (cols rows : Nat)
    (h : p.Get id = some s) :
    (s.Resize cols rows false).2 = true ∧
    (s.Resize cols rows false).1 = { s with Cols := cols, Rows := rows } ∧
    (s.Resize cols rows false).1.closed = s.closed ∧
    Handler.updateSession p id (some (cols, rows)) false =
      (p.setSession id { s with Cols := cols, Rows := rows }, 500) := by
  refine ⟨rfl, rfl, rfl, ?_⟩
  simp [Handler.updateSession, h, Session.Resize]

/-- C5 witness: a failed 120x40 resize of the two-client pool answers 500
and records the new size. -/
theorem C5_resize_failure_witness :
    (sess2.Resize 120 40 false).2 = true ∧
    Handler.updateSession pool2 "pty_a" (some (120, 40)) false =
      (pool2.setSession "pty_a" { sess2 with Cols := 120, Rows := 40 }, 500) := by
  have h := C5_resize_failure pool2 "pty_a" sess2 120 40 (by decide)
  exact ⟨h.1, h.2.2.2⟩

/-- A closed tmux-backed session, used by the C6 counterexample. -/
def sessClosedT : Session :=
  Session.Close { NewSession "pty_t" 80 24 0 with TmuxSessionName := "pty_t" }

/-- C6 counterexample: with the multiplexer enabled, a non-empty tmux
name and an existing external session, ReattachTmux still returns an
error when the session is closed, so the three stated preconditions do
not suffice. -/
theorem C6_counterexample :
    pool2.config.TmuxEnabled = true ∧
    sessClosedT.TmuxSessionName ≠ "" ∧
    (pool2.ReattachTmux sessClosedT true true).2 =
      some "session is closed and cannot be reattached" := by
  exact ⟨by decide, by decide, by decide⟩

/-- C6 (amended): ReattachTmux succeeds exactly when the multiplexer is
enabled, the session's tmux name is non-empty, the external tmux session
still exists, the session is not closed, and the attach of the new
backend succeeds; on success it replaces the PTY, and on failure it
returns an error and leaves the session unchanged. -/
theorem C6_reattach_preconditions (p : Pool) (s : Session) (e a : Bool) :
    ((p.ReattachTmux s e a).2 = none ↔
      p.config.TmuxEnabled = true ∧ s.TmuxSessionName ≠ "" ∧ e = true ∧
        s.closed = false ∧ a = true) ∧
    ((p.ReattachTmux s e a).2 = none → (p.ReattachTmux s e a).1 = s.ReplacePTY) ∧
    ((p.ReattachTmux s e a).2 ≠ none → (p.ReattachTmux s e a).1 = s) := by
  simp only [Pool.ReattachTmux]
  split_ifs with h1 h2 h3 h4
  · refine ⟨⟨False.elim, fun hc => ?_⟩, False.elim, fun _ => rfl⟩
    rcases h1 with h | h
    · exact absurd hc.1 h
    · exact absurd h hc.2.1
  · refine ⟨⟨False.elim, fun hc => ?_⟩, False.elim, fun _ => rfl⟩
    rw [hc.2.2.2.1] at h3
    exact Bool.noConfusion h3
  · have h1a : p.config.TmuxEnabled = true ∧ s.TmuxSessionName ≠ "" := by
      push_neg at h1
      exact h1
    have h3a : s.closed = false := by simpa using h3
    exact ⟨⟨fun _ => ⟨h1a.1, h1a.2, h2, h3a, h4⟩, fun _ => rfl⟩, fun _ => rfl,
      fun hx => absurd rfl hx⟩
  · refine ⟨⟨False.elim, fun hc => ?_⟩, False.elim, fun _ => rfl⟩
    exact absurd hc.2.2.2.2 h4
  · refine ⟨⟨False.elim, fun hc => ?_⟩, False.elim, fun _ => rfl⟩
    exact absurd hc.2.2.1 h2

/-- An open tmux-backed session, used by the C6 witness. -/
def sessT : Session := { NewSession "pty_t" 80 24 0 with TmuxSessionName := "pty_t" }

/-- C6 witness: with every precondition satisfied the reattach succeeds
and replaces the PTY. -/
theorem C6_reattach_preconditions_witness :
    (pool2.ReattachTmux sessT true true).2 = none ∧
    (pool2.ReattachTmux sessT true true).1 = sessT.ReplacePTY := by
  have h := C6_reattach_preconditions pool2 sessT true true
  have hs : (pool2.ReattachTmux sessT true true).2 = none :=
    h.1.mpr ⟨by decide, by decide, rfl, by decide, rfl⟩
  exact ⟨hs, h.2.1 hs⟩

/-- Filtering twice with the same predicate equals filtering once. -/
lemma filter_idem (l : List (String × Session)) (f : String × Session → Bool) :
    (l.filter f).filter f = l.filter f := by
  induction l with
  | nil => rfl
  | cons e t ih =>
    by_cases hf : f e <;> simp [List.filter_cons, hf, ih]

/-- C7: Pool.Remove is idempotent — a second Remove of the same id and a
Remove of an absent id leave the pool unchanged — and Close and
CloseWithTmux are set-once: after either has run, any further call to
either is a no-op. -/
theorem C7_remove_idempotent (p : Pool) (id : String) (s : Session) :
    (p.Remove id).Remove id = p.Remove id ∧
    ((∀ e ∈ p.sessions, e.1 ≠ id) → p.Remove id = p) ∧
    s.Close.Close = s.Close ∧
    s.Close.CloseWithTmux = s.Close ∧
    s.CloseWithTmux.Close = s.CloseWithTmux ∧
    s.CloseWithTmux.CloseWithTmux = s.CloseWithTmux := by
  obtain ⟨cfg, ss⟩ := p
  refine ⟨?_, ?_, close_close s, close_closeWithTmux s, closeWithTmux_close s,
    closeWithTmux_closeWithTmux s⟩
  · simp only [Pool.Remove]
    congr 1
    exact filter_idem ss _
  · intro habs
    simp only [Pool.Remove]
    congr 1
    refine List.filter_eq_self.mpr ?_
    intro e he
    simpa using habs e he

/-- C7 witness: removing an absent id twice from the concrete pool is the
same as removing it once, and removing it once changes nothing. -/
theorem C7_remove_idempotent_witness :
    (pool2.Remove "absent").Remove "absent" = pool2.Remove "absent" ∧
    pool2.Remove "absent" = pool2 := by
  have h := C7_remove_idempotent pool2 "absent" sess2
  exact ⟨h.1, h.2.1 (by decide)⟩

/-- C8: Pool.Create resolves defaults from the config — empty command
becomes DefaultCommand, empty args become DefaultArgs, args still empty
with a shell-looking command become the login-interactive pair, empty
workdir becomes DefaultWorkdir — the generated id is "pty_" plus the
random token, and the create handler substitutes 80 and 24 for zero cols
and rows before calling Create. -/
theorem C8_create_defaults (p : Pool) (cols rows : Nat) (command : String)
    (args : List String) (workdir : String) (token : String) (spawnOk : Bool)
    (now : Int) (reqCols reqRows : Nat) :
    (command = "" →
      (p.Create cols rows command args workdir token spawnOk now).2.2.command =
        p.config.DefaultCommand) ∧
    (command ≠ "" →
      (p.Create cols rows command args workdir token spawnOk now).2.2.command = command) ∧
    (args = [] → p.config.DefaultArgs ≠ [] →
      (p.Create cols rows command args workdir token spawnOk now).2.2.args =
        p.config.DefaultArgs) ∧
    (args = [] → p.config.DefaultArgs = [] →
      looksLikePosixShell (if command = "" then p.config.DefaultCommand else command) = true →
      (p.Create cols rows command args workdir token spawnOk now).2.2.args = ["-l", "-i"]) ∧
    (args ≠ [] →
      (p.Create cols rows command args workdir token spawnOk now).2.2.args = args) ∧
    (workdir = "" →
      (p.Create cols rows command args workdir token spawnOk now).2.2.workdir =
        p.config.DefaultWorkdir) ∧
    (∀ s, (p.Create cols rows command args workdir token spawnOk now).2.1 = some s →
      s.ID = "pty_" ++ token) ∧
    (Handler.createSession p reqCols reqRows command args workdir token spawnOk now).2.2.cols =
      (if reqCols = 0 then 80 else reqCols) ∧
    (Handler.createSession p reqCols reqRows command args workdir token spawnOk now).2.2.rows =
      (if reqRows = 0 then 24 else reqRows) := by
  refine ⟨?_, ?_, ?_, ?_, ?_, ?_, ?_, ?_, ?_⟩
  · intro hcmd
    by_cases hs : spawnOk <;> simp [Pool.Create, hs, hcmd]
  · intro hcmd
    by_cases hs : spawnOk <;> simp [Pool.Create, hs, hcmd]
  · intro ha hda
    by_cases hs : spawnOk <;>
      simp [Pool.Create, hs, ha, List.length_eq_zero, hda]
  · intro ha hda hsh
    by_cases hs : spawnOk <;>
      simp [Pool.Create, hs, ha, hda, hsh]
  · intro ha
    by_cases hs : spawnOk <;>
      simp [Pool.Create, hs, List.length_eq_zero, ha]
  · intro hw
    by_cases hs : spawnOk <;> simp [Pool.Create, hs, hw]
  · intro s hsome
    by_cases hs : spawnOk <;> simp [Pool.Create, hs] at hsome
    rw [← hsome]
    rfl
  · by_cases hs : spawnOk <;> simp [Handler.createSession, Pool.Create, hs]
  · by_cases hs : spawnOk <;> simp [Handler.createSession, Pool.Create, hs]

/-- C8 witness: with the concrete config, empty command, args and workdir
resolve to /bin/bash with login-interactive args in /root, and the create
handler turns 0x0 into 80x24. -/
theorem C8_create_defaults_witness :
    (pool2.Create 80 24 "" [] "" "abc" true 0).2.2.command = "/bin/bash" ∧
    (pool2.Create 80 24 "" [] "" "abc" true 0).2.2.args = ["-l", "-i"] ∧
    (pool2.Create 80 24 "" [] "" "abc" true 0).2.2.workdir = "/root" ∧
    (Handler.createSession pool2 0 0 "" [] "" "abc" true 0).2.2.cols = 80 ∧
    (Handler.createSession pool2 0 0 "" [] "" "abc" true 0).2.2.rows = 24 := by
  have h := C8_create_defaults pool2 80 24 "" [] "" "abc" true 0 0 0
  refine ⟨?_, ?_, ?_, ?_, ?_⟩
  · rw [h.1 rfl]
    decide
  · rw [h.2.2.2.1 rfl (by decide) (by decide)]
  · rw [h.2.2.2.2.2.1 rfl]
    decide
  · rw [h.2.2.2.2.2.2.2.1]
    decide
  · rw [h.2.2.2.2.2.2.2.2]
    decide
